import Mathlib

/-!
Shallow embedding of the SAP BusinessObjects REST client
(`sdk_parser_new.py`, class `BOESDKParser`) for verification.

Modelling conventions:
 - JSON values are an inductive `JValue`; a parsed JSON object is a list of
   key/value pairs with distinct keys (a Python dict), looked up by first match.
 - An HTTP response is modelled as its status code, its decoded JSON body
   (`Option JValue`, `none` when the body is not valid JSON) and its raw text.
 - Python exceptions become the `PyError` error type; a function that can
   raise returns `Except PyError _`.
 - Network requests are modelled explicitly: for each operation a request
   builder computes the `Request` the Python code hands to `requests`, and a
   separate function consumes the response the server gives back.
 - The `requests` library is modelled at version 2.27 or newer, where a JSON
   decode failure inside a `try` block is a `RequestException` and
   `raise_for_status` raises exactly for statuses in [400, 600).
 - `logging.info` / `logging.error` / `print` calls become a `List String`
   log output where a claim depends on it; the interpolated exception text of
   a caught exception object is elided from the modelled message.
-/

inductive JValue where
  | null
  | bool (b : Bool)
  | num (n : Int)
  | str (s : String)
  | arr (xs : List JValue)
  | obj (fields : List (String × JValue))

/-- Field access on a parsed JSON object (Python `j[key]` on a dict),
returning `none` when the key is absent or the value is not an object. -/
def JValue.getField : JValue → String → Option JValue
  | .obj fs, k => fs.lookup k
  | _, _ => Option.none

/-- Python exception kinds raised by the client code. -/
inductive PyError where
  | exception (msg : String)
  | valueError (msg : String)
  | keyError (key : String)
  | indexError
  | typeError
  | jsonDecodeError
deriving DecidableEq

/-- Python `j[key]`, raising `KeyError` when the key is missing. -/
def requireField (j : JValue) (k : String) : Except PyError JValue :=
  match j.getField k with
  | some v => .ok v
  | Option.none => .error (.keyError k)

/-- An HTTP response as the client observes it: status code, decoded JSON
body (`none` when `resp.json()` would raise a decode error) and raw text. -/
structure HResponse where
  status : Nat
  json : Option JValue
  text : String

/-- `requests.Response.raise_for_status` raises exactly for 4xx and 5xx. -/
def raise_for_status (status : Nat) : Bool :=
  decide (400 ≤ status ∧ status < 600)

/-- Python dict update `h[k] = v`: replace the value in place when the key
exists, otherwise append the new pair at the end. -/
def setHeader : List (String × JValue) → String → JValue → List (String × JValue)
  | [], k, v => [(k, v)]
  | (k0, v0) :: rest, k, v =>
      if k0 = k then (k0, v) :: rest else (k0, v0) :: setHeader rest k v

/-- The client state: the four endpoint roots built in `__init__`, the shared
mutable header mapping, and the logon token (absent until authentication).
Operations other than the two authentication calls never mutate this state,
which the embedding reflects by giving them no state output. -/
structure BOESDKParser where
  bip_url : String
  webi_url : String
  sl_url : String
  query_url : String
  headers : List (String × JValue)
  logon_token : Option JValue

/-- `BOESDKParser.__init__`. -/
def BOESDKParser.init (protocol host port content_type : String) : BOESDKParser :=
  let base_url := protocol ++ "://" ++ host ++ ":" ++ port
  let bip := base_url ++ "/biprws"
  { bip_url := bip
    webi_url := bip ++ "/raylight/v1"
    sl_url := bip ++ "/sl/v1"
    query_url := bip ++ "/v1"
    headers := [("Accept", .str content_type), ("Content-Type", .str content_type)]
    logon_token := Option.none }

/-- Outcome of a state-mutating call: the post-state, the normal return or
the raised exception, and the emitted log lines. -/
structure CallResult (α : Type) where
  state : BOESDKParser
  outcome : Except PyError α
  log : List String

/-- `set_logon_token`, applied to the response of the credential submission
(`_send_auth_info`): on status 200 extract `logonToken` from the JSON body,
store it in `logon_token` and under the `X-SAP-LogonToken` header key; on any
other status log the status code and body text and raise a fixed-message
`Exception`. The success log line elides the interpolated token text. -/
def set_logon_token (c : BOESDKParser) (resp : HResponse) : CallResult Unit :=
  if resp.status = 200 then
    match resp.json with
    | Option.none => ⟨c, .error .jsonDecodeError, []⟩
    | some j =>
      match j.getField "logonToken" with
      | Option.none => ⟨c, .error (.keyError "logonToken"), []⟩
      | some tok =>
        ⟨{ c with logon_token := some tok,
                  headers := setHeader c.headers "X-SAP-LogonToken" tok },
         .ok (), ["Logon successful, logon token set"]⟩
  else
    ⟨c, .error (.exception "Could not log on and set the logon token!"),
     ["Logon failed: " ++ toString resp.status ++ " - " ++ resp.text]⟩

/-- `set_trusted_token`, applied to the response of `_get_trusted_token`:
same token installation as the credential flow, but no logging at all and the
same fixed-message `Exception` on a non-200 status. -/
def set_trusted_token (c : BOESDKParser) (resp : HResponse) : CallResult Unit :=
  if resp.status = 200 then
    match resp.json with
    | Option.none => ⟨c, .error .jsonDecodeError, []⟩
    | some j =>
      match j.getField "logonToken" with
      | Option.none => ⟨c, .error (.keyError "logonToken"), []⟩
      | some tok =>
        ⟨{ c with logon_token := some tok,
                  headers := setHeader c.headers "X-SAP-LogonToken" tok },
         .ok (), []⟩
  else
    ⟨c, .error (.exception "Could not log on and set the logon token!"), []⟩

/-- A network request as handed to the `requests` session: HTTP method,
URL, the header mapping passed along, and the optional JSON payload. -/
structure Request where
  method : String
  url : String
  headers : List (String × JValue)
  payload : Option JValue

/-- Request built by `_get_trusted_token`: a copy of the shared headers with
the trusted user name added under `X-SAP-TRUSTED-USER`. -/
def get_trusted_token_request (c : BOESDKParser) (username : String) : Request :=
  ⟨"GET", c.bip_url ++ "/logon/trusted",
   setHeader c.headers "X-SAP-TRUSTED-USER" (.str username), Option.none⟩

/-- Request built by `get_universes`. -/
def get_universes_request (c : BOESDKParser) : Request :=
  ⟨"GET", c.webi_url ++ "/universes", c.headers, Option.none⟩

/-- Request built by `get_univ_details`. -/
def get_univ_details_request (c : BOESDKParser) (universe_id : String) : Request :=
  ⟨"GET", c.webi_url ++ "/universes/" ++ universe_id, c.headers, Option.none⟩

/-- Request built for the structured CMS query endpoint (used by
`get_universe_related_reports` and `get_univ_related_conn_id`). -/
def cmsquery_request (c : BOESDKParser) (payload : JValue) : Request :=
  ⟨"POST", c.query_url ++ "/cmsquery?page=1&pagesize=50000", c.headers, some payload⟩

/-- Request built by `get_folders` for one folder id. -/
def get_folders_request (c : BOESDKParser) (folder_id : String) : Request :=
  ⟨"GET", c.bip_url ++ "/infostore/" ++ folder_id
     ++ "/children?type=Folder&page=1&pagesize=10000", c.headers, Option.none⟩

/-- Request built by `get_webi_docs` for one folder id. -/
def get_webi_docs_request (c : BOESDKParser) (folder_id : String) : Request :=
  ⟨"GET", c.bip_url ++ "/infostore/" ++ folder_id
     ++ "/children?type=Webi&page=1&pagesize=10000", c.headers, Option.none⟩

/-- Request built by `delete_webi_doc`. -/
def delete_webi_doc_request (c : BOESDKParser) (webi_doc_id : String) : Request :=
  ⟨"DELETE", c.webi_url ++ "/documents/" ++ webi_doc_id, c.headers, Option.none⟩

/-- Request built by `get_dp`. -/
def get_dp_request (c : BOESDKParser) (webi_doc_id : String) : Request :=
  ⟨"GET", c.webi_url ++ "/documents/" ++ webi_doc_id ++ "/dataproviders",
   c.headers, Option.none⟩

/-- Request built by `get_dp_details`. -/
def get_dp_details_request (c : BOESDKParser) (webi_doc_id dp_id : String) : Request :=
  ⟨"GET", c.webi_url ++ "/documents/" ++ webi_doc_id ++ "/dataproviders/" ++ dp_id,
   c.headers, Option.none⟩

/-- Request built by `purge_dp`. -/
def purge_dp_request (c : BOESDKParser) (webi_doc_id dp_id : String) : Request :=
  ⟨"PUT", c.webi_url ++ "/documents/" ++ webi_doc_id ++ "/dataproviders/" ++ dp_id
     ++ "?purge=true", c.headers, Option.none⟩

/-- Request built by `save_webi_doc`. -/
def save_webi_doc_request (c : BOESDKParser) (webi_doc_id webi_doc_name : String) : Request :=
  ⟨"POST", c.webi_url ++ "/documents/" ++ webi_doc_id ++ "?overwrite=true&withComments=true",
   c.headers,
   some (.obj [("document", .obj [("name", .str webi_doc_name), ("folderId", .num (-1))])])⟩

/-- Request built by `get_doc_details` and by `get_doc_status` (same URL). -/
def get_doc_details_request (c : BOESDKParser) (webi_doc_id : String) : Request :=
  ⟨"GET", c.webi_url ++ "/documents/" ++ webi_doc_id, c.headers, Option.none⟩

/-- Request built by `bo_logoff`. -/
def bo_logoff_request (c : BOESDKParser) : Request :=
  ⟨"POST", c.bip_url ++ "/v1/logoff", c.headers, Option.none⟩

/-- A single-quote character, used inside the SQL-like query texts. -/
def squote : String := "\x27"

/-- The query text `get_universe_related_reports` builds for a `unx`
universe (field `SI_SL_DOCUMENTS`, kind `DSL.MetaDataFile`). -/
def unx_query (universe_id : String) : String :=
  "SELECT TOP 50000 SI_ID, SI_NAME, SI_SL_DOCUMENTS FROM CI_APPOBJECTS WHERE SI_KIND = "
    ++ squote ++ "DSL.MetaDataFile" ++ squote ++ " AND SI_ID =" ++ universe_id

/-- The query text `get_universe_related_reports` builds for a `unv`
universe (field `SI_WEBI`, kind `Universe`). -/
def unv_query (universe_id : String) : String :=
  "SELECT TOP 50000 SI_ID, SI_NAME, SI_WEBI FROM CI_APPOBJECTS WHERE SI_KIND = "
    ++ squote ++ "Universe" ++ squote ++ " AND SI_ID = " ++ universe_id

/-- Python `str.lower()`, character by character (the universe type strings
it is applied to are ASCII). -/
def strLower (s : String) : String := ⟨s.data.map Char.toLower⟩

/-- The dictionary `get_univ_details` builds from a 200 response. -/
structure UnivDetails where
  u_type : String
  u_name : JValue
  u_cuid : JValue

/-- Response processing of `get_univ_details`: on 200 read
`universe.type` (lowercased), `universe.name` and `universe.cuid`; on any
other status raise. A non-string `type` value models the `AttributeError`
Python would raise on `.lower()`. -/
def parse_univ_details (resp : HResponse) : Except PyError UnivDetails :=
  if resp.status = 200 then
    match resp.json with
    | Option.none => .error .jsonDecodeError
    | some j => do
      let u ← requireField j "universe"
      let ty ← requireField u "type"
      match ty with
      | .str s => do
        let n ← requireField u "name"
        let cu ← requireField u "cuid"
        .ok ⟨strLower s, n, cu⟩
      | _ => .error .typeError
  else .error (.exception "Could not retrieve the universe. Check the Universe ID again")

/-- Response processing of the structured query in
`get_universe_related_reports` (source lines 210-217): on 200, take the
first entry of `entries`, read the report field as an object, keep the
values of all its pairs whose key is not `SI_TOTAL`, and return
`(SI_ID, SI_NAME, reports)`; on any other status raise an exception whose
message carries the status code and body text. -/
def processQueryResp (resp : HResponse) (report_field : String) :
    Except PyError (JValue × JValue × List JValue) :=
  if resp.status = 200 then
    match resp.json with
    | Option.none => .error .jsonDecodeError
    | some j =>
      match j.getField "entries" with
      | some (.arr (e0 :: _)) =>
        match e0.getField report_field with
        | some (.obj fs) =>
          let reports := (fs.filter (fun p => p.1 != "SI_TOTAL")).map Prod.snd
          match e0.getField "SI_ID" with
          | Option.none => .error (.keyError "SI_ID")
          | some sid =>
            match e0.getField "SI_NAME" with
            | Option.none => .error (.keyError "SI_NAME")
            | some sname => .ok (sid, sname, reports)
        | some _ => .error .typeError
        | Option.none => .error (.keyError report_field)
      | some (.arr []) => .error .indexError
      | some _ => .error .typeError
      | Option.none => .error (.keyError "entries")
  else
    .error (.exception ("Could not retrieve reports: " ++ toString resp.status
      ++ " - " ++ resp.text))

/-- `get_universe_related_reports`: resolve the universe details, branch on
the universe type (`unx` harvests `SI_SL_DOCUMENTS`, `unv` harvests
`SI_WEBI`, anything else raises `ValueError` without posting the structured
query), and process the query response. The second component is the list of
network requests the call issues, in order. -/
def get_universe_related_reports (c : BOESDKParser) (universe_id : String)
    (univResp queryResp : HResponse) :
    Except PyError (JValue × JValue × List JValue) × List Request :=
  match parse_univ_details univResp with
  | .error e => (.error e, [get_univ_details_request c universe_id])
  | .ok d =>
    if d.u_type = "unx" then
      (processQueryResp queryResp "SI_SL_DOCUMENTS",
       [get_univ_details_request c universe_id,
        cmsquery_request c (.obj [("query", .str (unx_query universe_id))])])
    else if d.u_type = "unv" then
      (processQueryResp queryResp "SI_WEBI",
       [get_univ_details_request c universe_id,
        cmsquery_request c (.obj [("query", .str (unv_query universe_id))])])
    else
      (.error (.valueError "Invalid universe type"),
       [get_univ_details_request c universe_id])

/-- The heterogeneous return slot of `get_doc_status` in the source: a
dictionary, a bare string, or `None`. -/
inductive PyReturn where
  | retDict (fields : List (String × JValue))
  | retStr (s : String)
  | retNone

/-- `get_doc_status` response processing. Inside the `try`:
`raise_for_status`, then read `document.state` from the JSON body into a
one-field dictionary. The handler for `RequestException`: when the status is
exactly 500, re-decode the body; a body that is valid JSON with
`error.error_code` equal to `WSR 00999` returns that literal string, any
other valid-JSON body falls off the function end returning `None` silently,
and an undecodable body prints a decode-failure line and returns `None`.
Any other failing status prints a generic line and returns `None`. A missing
`document` or `state` key on a passing status is an uncaught `KeyError`. -/
def get_doc_status (resp : HResponse) : Except PyError (PyReturn × List String) :=
  if raise_for_status resp.status then
    if resp.status = 500 then
      match resp.json with
      | Option.none => .ok (.retNone, ["Error decoding 500 JSON response"])
      | some j =>
        match j.getField "error" with
        | some e =>
          match e.getField "error_code" with
          | some (.str code) =>
            if code = "WSR 00999" then .ok (.retStr "WSR 00999", [])
            else .ok (.retNone, [])
          | some _ => .ok (.retNone, [])
          | Option.none => .ok (.retNone, [])
        | Option.none => .ok (.retNone, [])
    else .ok (.retNone, ["Error getting document info"])
  else
    match resp.json with
    | Option.none => .ok (.retNone, ["Error getting document info"])
    | some j => do
      let d ← requireField j "document"
      let st ← requireField d "state"
      .ok (.retDict [("webi_doc_state", st)], [])

/-- `get_doc_details` response processing: on a status that
`raise_for_status` rejects, or on an undecodable body, print and return
`None`; otherwise build the five-field dictionary, raising `KeyError` on a
missing field. -/
def get_doc_details (resp : HResponse) :
    Except PyError (Option (List (String × JValue))) :=
  if raise_for_status resp.status then .ok Option.none
  else
    match resp.json with
    | Option.none => .ok Option.none
    | some j => do
      let d ← requireField j "document"
      let n ← requireField d "name"
      let p ← requireField d "path"
      let cu ← requireField d "cuid"
      let sch ← requireField d "scheduled"
      let st ← requireField d "state"
      .ok (some [("webi_doc_name", n), ("webi_doc_path", p), ("webi_doc_cuid", cu),
                 ("webi_doc_scheduled", sch), ("webi_doc_state", st)])

/-- `delete_webi_doc` response processing: `raise_for_status` failure is
caught, printed and turned into `False`; otherwise `True`. Never raises. -/
def delete_webi_doc (resp : HResponse) : Bool :=
  if raise_for_status resp.status then false else true

/-- `purge_dp` response processing: same shape as `delete_webi_doc`. -/
def purge_dp (resp : HResponse) : Bool :=
  if raise_for_status resp.status then false else true

/-- `save_webi_doc` response processing: side effect only; the returned
value is the printed line (failure line on a rejected status, success line
otherwise). Never raises. -/
def save_webi_doc (resp : HResponse) : List String :=
  if raise_for_status resp.status then ["Error saving Webi document"]
  else ["Saved Webi document"]

/-- `get_dp` response processing: rejected status or undecodable body is
caught and returns the empty list; otherwise map each entry of
`dataproviders.dataprovider` to its `id`, raising `KeyError` on a missing
key. -/
def get_dp (resp : HResponse) : Except PyError (List JValue) :=
  if raise_for_status resp.status then .ok []
  else
    match resp.json with
    | Option.none => .ok []
    | some j => do
      let dps ← requireField j "dataproviders"
      let dp ← requireField dps "dataprovider"
      match dp with
      | .arr xs => xs.mapM (fun x => requireField x "id")
      | _ => .error .typeError

/-- The dictionary `get_dp_details` builds from a passing response. -/
structure DpDetails where
  id : JValue
  dataSourceId : JValue
  dataSourceType : JValue
  dataSourceName : JValue

/-- `get_dp_details` response processing: rejected status or undecodable
body returns `None`; otherwise build the four-field dictionary, raising
`KeyError` on a missing field. -/
def get_dp_details (resp : HResponse) : Except PyError (Option DpDetails) :=
  if raise_for_status resp.status then .ok Option.none
  else
    match resp.json with
    | Option.none => .ok Option.none
    | some j => do
      let d ← requireField j "dataprovider"
      let i ← requireField d "id"
      let dsi ← requireField d "dataSourceId"
      let dst ← requireField d "dataSourceType"
      let dsn ← requireField d "dataSourceName"
      .ok (some ⟨i, dsi, dst, dsn⟩)

mutual
/-- A folder hierarchy as the server presents it to `get_folders`: each node
carries the folder id, the HTTP status the server answers for the child
listing of this folder, whether that answer decodes as JSON with an
`entries` array of id-bearing objects (`goodJson`), and the child folders in
the order the server lists them. The inductive shape is the acyclicity
assumption of the claim. -/
inductive FolderTree where
  | node (id : String) (status : Nat) (goodJson : Bool) (children : FolderForest)
/-- A list of sibling folders, as a mutual inductive so that structural
recursion and induction over the hierarchy are available. -/
inductive FolderForest where
  | nil
  | cons (head : FolderTree) (tail : FolderForest)
end

/-- Folder id of the root node of a tree. -/
def FolderTree.id : FolderTree → String
  | .node i _ _ _ => i

/-- Status the server answers for the child listing of the root node. -/
def FolderTree.status : FolderTree → Nat
  | .node _ st _ _ => st

mutual
/-- Recursive core of `get_folders` after the accumulator default: request
the child listing of this folder; on status 200 decode the body (an
undecodable body raises a decode error) and for each listed child append its
id to the accumulator and recurse into it; on any other status return the
accumulator unchanged. -/
def get_folders_go : FolderTree → List String → Except PyError (List String)
  | .node _ st good cs, folder_list =>
    if st = 200 then
      if good then get_folders_children cs folder_list
      else .error .jsonDecodeError
    else .ok folder_list
/-- The `for entry in j_resp[entries]` loop of `get_folders`: append the id
of each child in server order, recursing into the child right after its
append, and propagate any exception raised inside the loop. -/
def get_folders_children : FolderForest → List String → Except PyError (List String)
  | .nil, folder_list => .ok folder_list
  | .cons c rest, folder_list =>
    match get_folders_go c (folder_list ++ [c.id]) with
    | .ok acc2 => get_folders_children rest acc2
    | .error e => .error e
end

/-- `get_folders(folder_id, folder_list=None)`: a missing accumulator starts
from the empty list, a caller-supplied one is extended in place. -/
def get_folders (t : FolderTree) (folder_list : Option (List String)) :
    Except PyError (List String) :=
  get_folders_go t (folder_list.getD [])

mutual
/-- Depth-first pre-order listing of the ids of all proper descendants of a
node: each child id precedes the ids of the descendants of that child, and
siblings appear in server order. -/
def descIds : FolderTree → List String
  | .node _ _ _ cs => descForest cs
/-- Pre-order id listing of a forest and everything below it. -/
def descForest : FolderForest → List String
  | .nil => []
  | .cons c rest => c.id :: (descIds c ++ descForest rest)
end

mutual
/-- Every child-listing request in the hierarchy succeeds: status 200 with a
well-formed body, at this node and below. -/
def allOk : FolderTree → Bool
  | .node _ st good cs => (st == 200) && good && allOkForest cs
/-- `allOk` over a forest. -/
def allOkForest : FolderForest → Bool
  | .nil => true
  | .cons c rest => allOk c && allOkForest rest
end

/-- The `for entry in j_resp[entries]` loop of `get_webi_docs`: the `id` of
every entry in order, raising `KeyError` on an entry without one. -/
def extract_ids : List JValue → Except PyError (List JValue)
  | [] => .ok []
  | e :: rest => do
    let i ← requireField e "id"
    let is2 ← extract_ids rest
    .ok (i :: is2)

/-- `get_webi_docs(folder_id, webi_list=None)` applied to the single child
listing response: a missing accumulator starts from the empty list; on
status 200 append the `id` of every object in `entries` to the accumulator
(a decode failure or missing key raises); on any other status return the
accumulator as is. -/
def get_webi_docs (resp : HResponse) (webi_list : Option (List JValue)) :
    Except PyError (List JValue) :=
  let l := webi_list.getD []
  if resp.status = 200 then
    match resp.json with
    | Option.none => .error .jsonDecodeError
    | some j =>
      match j.getField "entries" with
      | some (.arr es) => do
        let ids ← extract_ids es
        .ok (l ++ ids)
      | some _ => .error .typeError
      | Option.none => .error (.keyError "entries")
  else .ok l

/-- A concrete folder hierarchy of depth 3 with branching factor 2 at the
top two levels: the root has 7 proper descendants, every child listing
answers 200 with a well-formed body. -/
def folderDemoTree : FolderTree :=
  .node "F0" 200 true
    (.cons (.node "a" 200 true
        (.cons (.node "a1" 200 true
            (.cons (.node "a11" 200 true .nil) .nil))
          (.cons (.node "a2" 200 true .nil) .nil)))
      (.cons (.node "b" 200 true
          (.cons (.node "b1" 200 true .nil)
            (.cons (.node "b2" 200 true .nil) .nil)))
        .nil))

theorem lookup_setHeader (h : List (String × JValue)) (k : String) (v : JValue) :
    List.lookup k (setHeader h k v) = some v := by
  induction h with
  | nil => simp [setHeader, List.lookup]
  | cons p rest ih =>
    obtain ⟨k0, v0⟩ := p
    by_cases hk : k0 = k
    · simp [setHeader, hk, List.lookup]
    · have hb : (k == k0) = false := by simpa using Ne.symm hk
      simp [setHeader, hk, List.lookup, ih, hb]

mutual
theorem get_folders_go_allOk : ∀ (t : FolderTree) (acc : List String),
    allOk t = true → get_folders_go t acc = .ok (acc ++ descIds t)
  | .node i st good cs, acc, h => by
    unfold allOk at h
    simp only [Bool.and_eq_true, beq_iff_eq] at h
    obtain ⟨⟨h1, h2⟩, h3⟩ := h
    unfold get_folders_go descIds
    simp only [h1, h2, if_true]
    exact get_folders_children_allOk cs acc h3
theorem get_folders_children_allOk : ∀ (cs : FolderForest) (acc : List String),
    allOkForest cs = true → get_folders_children cs acc = .ok (acc ++ descForest cs)
  | .nil, acc, _ => by
    unfold get_folders_children descForest
    simp
  | .cons c rest, acc, h => by
    unfold allOkForest at h
    simp only [Bool.and_eq_true] at h
    obtain ⟨h1, h2⟩ := h
    unfold get_folders_children descForest
    rw [get_folders_go_allOk c (acc ++ [c.id]) h1]
    exact (get_folders_children_allOk rest (acc ++ [c.id] ++ descIds c) h2).trans
      (by simp)
end

mutual
theorem get_folders_go_extends : ∀ (t : FolderTree) (acc r : List String),
    get_folders_go t acc = .ok r → ∃ s, r = acc ++ s
  | .node i st good cs, acc, r, h => by
    unfold get_folders_go at h
    by_cases h1 : st = 200
    · simp only [h1, if_true] at h
      by_cases h2 : good = true
      · simp only [h2, if_true] at h
        exact get_folders_children_extends cs acc r h
      · simp [h2] at h
    · simp only [h1, if_false] at h
      exact ⟨[], by simpa using h.symm⟩
theorem get_folders_children_extends : ∀ (cs : FolderForest) (acc r : List String),
    get_folders_children cs acc = .ok r → ∃ s, r = acc ++ s
  | .nil, acc, r, h => by
    unfold get_folders_children at h
    exact ⟨[], by simpa using h.symm⟩
  | .cons c rest, acc, r, h => by
    unfold get_folders_children at h
    cases hg : get_folders_go c (acc ++ [c.id]) with
    | error e => rw [hg] at h; simp at h
    | ok acc2 =>
      rw [hg] at h
      obtain ⟨s1, hs1⟩ := get_folders_go_extends c (acc ++ [c.id]) acc2 hg
      obtain ⟨s2, hs2⟩ := get_folders_children_extends rest acc2 r h
      exact ⟨[c.id] ++ s1 ++ s2, by simp [hs2, hs1]⟩
end

/-- Claim C1: when the login submission is answered with status 200 and a
JSON body containing a `logonToken` field, `set_logon_token` returns
normally, stores the token in the `logon_token` attribute and under the
`X-SAP-LogonToken` key of the shared header mapping, and every subsequent
operation of the client sends that exact token in its request headers (each
operation passes the shared header mapping unchanged, and no operation other
than the two authentication calls mutates the client state). -/
theorem C1_auth_installs_token (c : BOESDKParser) (resp : HResponse) (j tok : JValue)
    (h200 : resp.status = 200) (hjson : resp.json = some j)
    (htok : j.getField "logonToken" = some tok) :
    (set_logon_token c resp).outcome = .ok () ∧
    ∃ c2, (set_logon_token c resp).state = c2 ∧
      c2.logon_token = some tok ∧
      List.lookup "X-SAP-LogonToken" c2.headers = some tok ∧
      List.lookup "X-SAP-LogonToken" (get_universes_request c2).headers = some tok ∧
      (∀ uid, List.lookup "X-SAP-LogonToken"
        (get_univ_details_request c2 uid).headers = some tok) ∧
      (∀ p, List.lookup "X-SAP-LogonToken" (cmsquery_request c2 p).headers = some tok) ∧
      (∀ fid, List.lookup "X-SAP-LogonToken" (get_folders_request c2 fid).headers = some tok) ∧
      (∀ fid, List.lookup "X-SAP-LogonToken" (get_webi_docs_request c2 fid).headers = some tok) ∧
      (∀ d, List.lookup "X-SAP-LogonToken" (delete_webi_doc_request c2 d).headers = some tok) ∧
      (∀ d, List.lookup "X-SAP-LogonToken" (get_dp_request c2 d).headers = some tok) ∧
      (∀ d p, List.lookup "X-SAP-LogonToken" (get_dp_details_request c2 d p).headers = some tok) ∧
      (∀ d p, List.lookup "X-SAP-LogonToken" (purge_dp_request c2 d p).headers = some tok) ∧
      (∀ d n, List.lookup "X-SAP-LogonToken" (save_webi_doc_request c2 d n).headers = some tok) ∧
      (∀ d, List.lookup "X-SAP-LogonToken" (get_doc_details_request c2 d).headers = some tok) ∧
      List.lookup "X-SAP-LogonToken" (bo_logoff_request c2).headers = some tok := by
  have hstate : (set_logon_token c resp).state =
      { c with logon_token := some tok,
               headers := setHeader c.headers "X-SAP-LogonToken" tok } := by
    simp [set_logon_token, h200, hjson, htok]
  have hout : (set_logon_token c resp).outcome = .ok () := by
    simp [set_logon_token, h200, hjson, htok]
  have hlook : List.lookup "X-SAP-LogonToken" (set_logon_token c resp).state.headers
      = some tok := by
    rw [hstate]
    exact lookup_setHeader c.headers "X-SAP-LogonToken" tok
  have htokset : (set_logon_token c resp).state.logon_token = some tok := by
    rw [hstate]
  exact ⟨hout, (set_logon_token c resp).state, rfl, htokset, hlook, hlook,
    fun _ => hlook, fun _ => hlook, fun _ => hlook, fun _ => hlook, fun _ => hlook,
    fun _ => hlook, fun _ _ => hlook, fun _ _ => hlook, fun _ _ => hlook,
    fun _ => hlook, hlook⟩

/-- Witness for C1 at a concrete client and response. -/
theorem C1_auth_installs_token_witness :
    (set_logon_token (BOESDKParser.init "http" "host" "8080" "application/json")
      ⟨200, some (.obj [("logonToken", .str "tok123")]), ""⟩).outcome = .ok () ∧
    (set_logon_token (BOESDKParser.init "http" "host" "8080" "application/json")
      ⟨200, some (.obj [("logonToken", .str "tok123")]), ""⟩).state.logon_token
      = some (.str "tok123") ∧
    List.lookup "X-SAP-LogonToken"
      (delete_webi_doc_request
        (set_logon_token (BOESDKParser.init "http" "host" "8080" "application/json")
          ⟨200, some (.obj [("logonToken", .str "tok123")]), ""⟩).state "77").headers
      = some (.str "tok123") := by
  obtain ⟨h1, c2, hc2, h2, h3, h4, h5, h6, h7, h8, h9, h10, h11, h12, h13, h14, h15⟩ :=
    C1_auth_installs_token (BOESDKParser.init "http" "host" "8080" "application/json")
      ⟨200, some (.obj [("logonToken", .str "tok123")]), ""⟩
      (.obj [("logonToken", .str "tok123")]) (.str "tok123") rfl rfl rfl
  refine ⟨h1, ?_, ?_⟩
  · rw [hc2]; exact h2
  · rw [hc2]; exact h9 "77"

/-- Counterexample to claim C2: the exception raised on a failed
authentication does not carry the status code or the response body. Two
failing responses with different status codes and different body texts
produce identical exception values, in both flows; and the trusted flow does
not even log the status or body. -/
theorem C2_counterexample :
    (set_logon_token (BOESDKParser.init "http" "host" "8080" "application/json")
      ⟨401, Option.none, "Unauthorized"⟩).outcome
      = (set_logon_token (BOESDKParser.init "http" "host" "8080" "application/json")
        ⟨503, Option.none, "Service Unavailable"⟩).outcome ∧
    (set_trusted_token (BOESDKParser.init "http" "host" "8080" "application/json")
      ⟨401, Option.none, "Unauthorized"⟩).outcome
      = (set_trusted_token (BOESDKParser.init "http" "host" "8080" "application/json")
        ⟨503, Option.none, "Service Unavailable"⟩).outcome ∧
    (set_trusted_token (BOESDKParser.init "http" "host" "8080" "application/json")
      ⟨401, Option.none, "Unauthorized"⟩).log = [] ∧
    (401 : Nat) ≠ 503 ∧ "Unauthorized" ≠ "Service Unavailable" := by
  refine ⟨rfl, rfl, rfl, by decide, by decide⟩

/-- Claim C2 as amended: on a non-200 authentication response, both flows
raise the fixed-message exception `Could not log on and set the logon
token!`; the status code and body text are recorded only in the log line of
the credential flow (the trusted flow logs nothing); the client state is
returned unchanged, so when the client had not previously authenticated the
`logon_token` attribute stays `None` and the `X-SAP-LogonToken` header stays
absent. -/
theorem C2_amended (c : BOESDKParser) (resp : HResponse) (hs : resp.status ≠ 200) :
    set_logon_token c resp =
      ⟨c, .error (.exception "Could not log on and set the logon token!"),
       ["Logon failed: " ++ toString resp.status ++ " - " ++ resp.text]⟩ ∧
    set_trusted_token c resp =
      ⟨c, .error (.exception "Could not log on and set the logon token!"), []⟩ ∧
    (c.logon_token = Option.none →
      (set_logon_token c resp).state.logon_token = Option.none ∧
      (set_trusted_token c resp).state.logon_token = Option.none) ∧
    List.lookup "X-SAP-LogonToken" (set_logon_token c resp).state.headers
      = List.lookup "X-SAP-LogonToken" c.headers := by
  refine ⟨by simp [set_logon_token, hs], by simp [set_trusted_token, hs], ?_, ?_⟩
  · intro h
    constructor
    · simp [set_logon_token, hs, h]
    · simp [set_trusted_token, hs, h]
  · simp [set_logon_token, hs]

/-- Witness for the amended C2 at a concrete unauthenticated client and a
404 response. -/
theorem C2_amended_witness :
    set_logon_token (BOESDKParser.init "http" "host" "8080" "application/json")
      ⟨404, Option.none, "Not Found"⟩ =
      ⟨BOESDKParser.init "http" "host" "8080" "application/json",
       .error (.exception "Could not log on and set the logon token!"),
       ["Logon failed: 404 - Not Found"]⟩ ∧
    (set_logon_token (BOESDKParser.init "http" "host" "8080" "application/json")
      ⟨404, Option.none, "Not Found"⟩).state.logon_token = Option.none := by
  obtain ⟨h1, h2, h3, h4⟩ :=
    C2_amended (BOESDKParser.init "http" "host" "8080" "application/json")
      ⟨404, Option.none, "Not Found"⟩ (by decide)
  exact ⟨h1, (h3 rfl).1⟩

/-- Claim C9: a failed re-authentication (non-200 response on either flow)
raises but leaves the client state unchanged: the previously installed
`logon_token` value and the `X-SAP-LogonToken` header keep their old values,
so the old token remains in effect for subsequent calls. -/
theorem C9_failed_reauth_keeps_old_token (c : BOESDKParser) (resp : HResponse)
    (tok : JValue) (hs : resp.status ≠ 200) (hprev : c.logon_token = some tok)
    (hhdr : List.lookup "X-SAP-LogonToken" c.headers = some tok) :
    (set_logon_token c resp).state = c ∧
    (set_trusted_token c resp).state = c ∧
    (set_logon_token c resp).outcome
      = .error (.exception "Could not log on and set the logon token!") ∧
    (set_trusted_token c resp).outcome
      = .error (.exception "Could not log on and set the logon token!") ∧
    (set_logon_token c resp).state.logon_token = some tok ∧
    List.lookup "X-SAP-LogonToken" (set_logon_token c resp).state.headers = some tok ∧
    (set_trusted_token c resp).state.logon_token = some tok ∧
    List.lookup "X-SAP-LogonToken" (set_trusted_token c resp).state.headers = some tok := by
  have h1 : (set_logon_token c resp).state = c := by simp [set_logon_token, hs]
  have h2 : (set_trusted_token c resp).state = c := by simp [set_trusted_token, hs]
  exact ⟨h1, h2, by simp [set_logon_token, hs], by simp [set_trusted_token, hs],
    by rw [h1]; exact hprev, by rw [h1]; exact hhdr,
    by rw [h2]; exact hprev, by rw [h2]; exact hhdr⟩

/-- Witness for C9: a concrete client that authenticated successfully, then
receives a 500 on re-authentication; the old token survives in both the
attribute and the header. -/
theorem C9_failed_reauth_keeps_old_token_witness :
    (set_logon_token
      (set_logon_token (BOESDKParser.init "http" "host" "8080" "application/json")
        ⟨200, some (.obj [("logonToken", .str "tokA")]), ""⟩).state
      ⟨500, Option.none, "boom"⟩).state.logon_token = some (.str "tokA") ∧
    List.lookup "X-SAP-LogonToken"
      (set_logon_token
        (set_logon_token (BOESDKParser.init "http" "host" "8080" "application/json")
          ⟨200, some (.obj [("logonToken", .str "tokA")]), ""⟩).state
        ⟨500, Option.none, "boom"⟩).state.headers = some (.str "tokA") := by
  obtain ⟨h1, h2, h3, h4, h5, h6, h7, h8⟩ :=
    C9_failed_reauth_keeps_old_token
      ((set_logon_token (BOESDKParser.init "http" "host" "8080" "application/json")
        ⟨200, some (.obj [("logonToken", .str "tokA")]), ""⟩).state)
      ⟨500, Option.none, "boom"⟩ (.str "tokA") (by decide) rfl rfl
  exact ⟨h5, h6⟩

/-- Claim C3: `get_universe_related_reports` first resolves the universe
type; a `unx` universe posts the structured query whose text names the
field `SI_SL_DOCUMENTS` and harvests that field from the query response, a
`unv` universe posts the query naming `SI_WEBI` and harvests that field,
and any other type raises `ValueError` with the details request as the only
network call issued (no structured-query request is posted). -/
theorem C3_universe_type_branches (c : BOESDKParser) (universe_id : String)
    (univResp queryResp : HResponse) (d : UnivDetails)
    (hd : parse_univ_details univResp = .ok d) :
    (d.u_type = "unx" →
      get_universe_related_reports c universe_id univResp queryResp =
        (processQueryResp queryResp "SI_SL_DOCUMENTS",
         [get_univ_details_request c universe_id,
          cmsquery_request c (.obj [("query", .str (unx_query universe_id))])]) ∧
      ∃ a b, unx_query universe_id = a ++ ("SI_SL_DOCUMENTS" ++ b)) ∧
    (d.u_type = "unv" →
      get_universe_related_reports c universe_id univResp queryResp =
        (processQueryResp queryResp "SI_WEBI",
         [get_univ_details_request c universe_id,
          cmsquery_request c (.obj [("query", .str (unv_query universe_id))])]) ∧
      ∃ a b, unv_query universe_id = a ++ ("SI_WEBI" ++ b)) ∧
    (d.u_type ≠ "unx" → d.u_type ≠ "unv" →
      get_universe_related_reports c universe_id univResp queryResp =
        (.error (.valueError "Invalid universe type"),
         [get_univ_details_request c universe_id])) := by
  refine ⟨fun h1 => ⟨?_, ?_⟩, fun h2 => ⟨?_, ?_⟩, fun h1 h2 => ?_⟩
  · simp [get_universe_related_reports, hd, h1]
  · refine ⟨"SELECT TOP 50000 SI_ID, SI_NAME, ",
      " FROM CI_APPOBJECTS WHERE SI_KIND = " ++ squote ++ "DSL.MetaDataFile"
        ++ squote ++ " AND SI_ID =" ++ universe_id, ?_⟩
    have hx : ("SELECT TOP 50000 SI_ID, SI_NAME, SI_SL_DOCUMENTS FROM CI_APPOBJECTS WHERE SI_KIND = " : String)
        = "SELECT TOP 50000 SI_ID, SI_NAME, "
          ++ ("SI_SL_DOCUMENTS" ++ " FROM CI_APPOBJECTS WHERE SI_KIND = ") := by decide
    simp only [unx_query, String.append_assoc, hx]
  · simp [get_universe_related_reports, hd, h2]
  · refine ⟨"SELECT TOP 50000 SI_ID, SI_NAME, ",
      " FROM CI_APPOBJECTS WHERE SI_KIND = " ++ squote ++ "Universe"
        ++ squote ++ " AND SI_ID = " ++ universe_id, ?_⟩
    have hx : ("SELECT TOP 50000 SI_ID, SI_NAME, SI_WEBI FROM CI_APPOBJECTS WHERE SI_KIND = " : String)
        = "SELECT TOP 50000 SI_ID, SI_NAME, "
          ++ ("SI_WEBI" ++ " FROM CI_APPOBJECTS WHERE SI_KIND = ") := by decide
    simp only [unv_query, String.append_assoc, hx]
  · simp [get_universe_related_reports, hd, h1, h2]

/-- Witness for C3 at a concrete client: a universe whose type resolves to
`unx` posts the `SI_SL_DOCUMENTS` query, and a universe of type `xls`
fails with `ValueError` after only the details request. -/
theorem C3_universe_type_branches_witness :
    get_universe_related_reports (BOESDKParser.init "http" "host" "8080" "application/json")
      "10"
      ⟨200, some (.obj [("universe",
        .obj [("type", .str "UNX"), ("name", .str "U"), ("cuid", .str "CU")])]), ""⟩
      ⟨200, Option.none, ""⟩ =
      (processQueryResp ⟨200, Option.none, ""⟩ "SI_SL_DOCUMENTS",
       [get_univ_details_request
          (BOESDKParser.init "http" "host" "8080" "application/json") "10",
        cmsquery_request (BOESDKParser.init "http" "host" "8080" "application/json")
          (.obj [("query", .str (unx_query "10"))])]) ∧
    get_universe_related_reports (BOESDKParser.init "http" "host" "8080" "application/json")
      "10"
      ⟨200, some (.obj [("universe",
        .obj [("type", .str "xls"), ("name", .str "U"), ("cuid", .str "CU")])]), ""⟩
      ⟨200, Option.none, ""⟩ =
      (.error (.valueError "Invalid universe type"),
       [get_univ_details_request
          (BOESDKParser.init "http" "host" "8080" "application/json") "10"]) := by
  constructor
  · exact ((C3_universe_type_branches
      (BOESDKParser.init "http" "host" "8080" "application/json") "10"
      ⟨200, some (.obj [("universe",
        .obj [("type", .str "UNX"), ("name", .str "U"), ("cuid", .str "CU")])]), ""⟩
      ⟨200, Option.none, ""⟩ ⟨"unx", .str "U", .str "CU"⟩ rfl).1 rfl).1
  · exact (C3_universe_type_branches
      (BOESDKParser.init "http" "host" "8080" "application/json") "10"
      ⟨200, some (.obj [("universe",
        .obj [("type", .str "xls"), ("name", .str "U"), ("cuid", .str "CU")])]), ""⟩
      ⟨200, Option.none, ""⟩ ⟨"xls", .str "U", .str "CU"⟩ rfl).2.2
      (by decide) (by decide)

/-- Claim C4: on a status-200 structured-query response,
`get_universe_related_reports` returns exactly the values of the harvested
report field whose key is not `SI_TOTAL`, in object order: the synthetic
`SI_TOTAL` pair never contributes a value, for every cardinality of report
ids, including the cardinality-zero case where nothing but `SI_TOTAL` is
present. -/
theorem C4_si_total_excluded (c : BOESDKParser) (universe_id : String)
    (univResp queryResp : HResponse) (d : UnivDetails) (field : String)
    (j e0 : JValue) (rest : List JValue) (fs : List (String × JValue)) (sid sname : JValue)
    (hd : parse_univ_details univResp = .ok d)
    (hbranch : d.u_type = "unx" ∧ field = "SI_SL_DOCUMENTS"
      ∨ d.u_type = "unv" ∧ field = "SI_WEBI")
    (h200 : queryResp.status = 200) (hjson : queryResp.json = some j)
    (hentries : j.getField "entries" = some (.arr (e0 :: rest)))
    (hfield : e0.getField field = some (.obj fs))
    (hsid : e0.getField "SI_ID" = some sid)
    (hsname : e0.getField "SI_NAME" = some sname) :
    ∃ reports, (get_universe_related_reports c universe_id univResp queryResp).1
        = .ok (sid, sname, reports) ∧
      reports = (fs.filter (fun p => p.1 != "SI_TOTAL")).map Prod.snd ∧
      (∀ v, ("SI_TOTAL", v) ∉ fs.filter (fun p => p.1 != "SI_TOTAL")) ∧
      (fs.filter (fun p => p.1 != "SI_TOTAL") = [] → reports = []) := by
  have hq : processQueryResp queryResp field
      = .ok (sid, sname, (fs.filter (fun p => p.1 != "SI_TOTAL")).map Prod.snd) := by
    simp [processQueryResp, h200, hjson, hentries, hfield, hsid, hsname]
  refine ⟨(fs.filter (fun p => p.1 != "SI_TOTAL")).map Prod.snd, ?_, rfl, ?_, ?_⟩
  · rcases hbranch with ⟨ht, hf⟩ | ⟨ht, hf⟩
    · subst hf
      simp [get_universe_related_reports, hd, ht, hq]
    · subst hf
      simp [get_universe_related_reports, hd, ht, hq]
  · intro v hv
    simp [List.mem_filter] at hv
  · intro h
    rw [h]
    rfl

/-- Witness for C4 at concrete inputs: one response with two report ids next
to `SI_TOTAL`, and one cardinality-zero response holding only `SI_TOTAL`. -/
theorem C4_si_total_excluded_witness :
    (get_universe_related_reports (BOESDKParser.init "http" "host" "8080" "application/json")
      "10"
      ⟨200, some (.obj [("universe",
        .obj [("type", .str "unx"), ("name", .str "U"), ("cuid", .str "CU")])]), ""⟩
      ⟨200, some (.obj [("entries", .arr [.obj
        [("SI_ID", .num 10), ("SI_NAME", .str "U"),
         ("SI_SL_DOCUMENTS", .obj [("SI_TOTAL", .num 2), ("1", .num 101), ("2", .num 102)])]])]),
       ""⟩).1 = .ok (.num 10, .str "U", [.num 101, .num 102]) ∧
    (get_universe_related_reports (BOESDKParser.init "http" "host" "8080" "application/json")
      "10"
      ⟨200, some (.obj [("universe",
        .obj [("type", .str "unx"), ("name", .str "U"), ("cuid", .str "CU")])]), ""⟩
      ⟨200, some (.obj [("entries", .arr [.obj
        [("SI_ID", .num 10), ("SI_NAME", .str "U"),
         ("SI_SL_DOCUMENTS", .obj [("SI_TOTAL", .num 0)])]])]), ""⟩).1
      = .ok (.num 10, .str "U", []) := by
  constructor
  · obtain ⟨reports, h1, h2, h3, h4⟩ :=
      C4_si_total_excluded (BOESDKParser.init "http" "host" "8080" "application/json") "10"
        ⟨200, some (.obj [("universe",
          .obj [("type", .str "unx"), ("name", .str "U"), ("cuid", .str "CU")])]), ""⟩
        ⟨200, some (.obj [("entries", .arr [.obj
          [("SI_ID", .num 10), ("SI_NAME", .str "U"),
           ("SI_SL_DOCUMENTS", .obj [("SI_TOTAL", .num 2), ("1", .num 101), ("2", .num 102)])]])]),
         ""⟩ ⟨"unx", .str "U", .str "CU"⟩ "SI_SL_DOCUMENTS"
        (.obj [("entries", .arr [.obj
          [("SI_ID", .num 10), ("SI_NAME", .str "U"),
           ("SI_SL_DOCUMENTS", .obj [("SI_TOTAL", .num 2), ("1", .num 101), ("2", .num 102)])]])])
        (.obj [("SI_ID", .num 10), ("SI_NAME", .str "U"),
           ("SI_SL_DOCUMENTS", .obj [("SI_TOTAL", .num 2), ("1", .num 101), ("2", .num 102)])])
        [] [("SI_TOTAL", .num 2), ("1", .num 101), ("2", .num 102)] (.num 10) (.str "U")
        rfl (Or.inl ⟨rfl, rfl⟩) rfl rfl rfl rfl rfl rfl
    rw [h1, h2]
    rfl
  · obtain ⟨reports, h1, h2, h3, h4⟩ :=
      C4_si_total_excluded (BOESDKParser.init "http" "host" "8080" "application/json") "10"
        ⟨200, some (.obj [("universe",
          .obj [("type", .str "unx"), ("name", .str "U"), ("cuid", .str "CU")])]), ""⟩
        ⟨200, some (.obj [("entries", .arr [.obj
          [("SI_ID", .num 10), ("SI_NAME", .str "U"),
           ("SI_SL_DOCUMENTS", .obj [("SI_TOTAL", .num 0)])]])]), ""⟩
        ⟨"unx", .str "U", .str "CU"⟩ "SI_SL_DOCUMENTS"
        (.obj [("entries", .arr [.obj
          [("SI_ID", .num 10), ("SI_NAME", .str "U"),
           ("SI_SL_DOCUMENTS", .obj [("SI_TOTAL", .num 0)])]])])
        (.obj [("SI_ID", .num 10), ("SI_NAME", .str "U"),
           ("SI_SL_DOCUMENTS", .obj [("SI_TOTAL", .num 0)])])
        [] [("SI_TOTAL", .num 0)] (.num 10) (.str "U")
        rfl (Or.inl ⟨rfl, rfl⟩) rfl rfl rfl rfl rfl rfl
    rw [h1, h2]
    rfl

/-- Claim C5: on an acyclic hierarchy in which every child-listing request
succeeds with status 200 and a well-formed body, `get_folders` called on
the root without an accumulator returns exactly the depth-first pre-order
listing of the ids of all proper descendants of the root (each folder id
precedes the ids of its descendants, siblings in server order), and each id
appears exactly once whenever the hierarchy ids are pairwise distinct. -/
theorem C5_preorder_traversal (t : FolderTree) (hok : allOk t = true) :
    get_folders t Option.none = .ok (descIds t) ∧
    ((t.id :: descIds t).Nodup → (descIds t).Nodup) := by
  constructor
  · have h := get_folders_go_allOk t [] hok
    simpa [get_folders] using h
  · intro h
    exact h.of_cons

/-- Witness for C5: the depth-3, branching-factor-2 demonstration tree
yields its 7 non-root ids exactly once, in pre-order. -/
theorem C5_preorder_traversal_witness :
    get_folders folderDemoTree Option.none
      = .ok ["a", "a1", "a11", "a2", "b", "b1", "b2"] ∧
    (["a", "a1", "a11", "a2", "b", "b1", "b2"] : List String).Nodup := by
  have h := C5_preorder_traversal folderDemoTree (by rfl)
  constructor
  · exact h.1.trans (by rfl)
  · exact h.2 (by decide)

/-- Claim C6: a non-200 child-listing response raises nothing: the folder
whose listing failed contributes no descendants (the traversal returns the
accumulator unchanged at that node), traversal continues with the siblings
that follow, and `get_webi_docs` called without an accumulator returns the
empty list rather than raising on a non-200 listing response. -/
theorem C6_non200_silent_stop (i : String) (st : Nat) (good : Bool)
    (cs : FolderForest) (acc : List String) (resp : HResponse)
    (hst : st ≠ 200) (hrs : resp.status ≠ 200) :
    get_folders_go (.node i st good cs) acc = .ok acc ∧
    (∀ (c2 : FolderTree) (rest : FolderForest), c2.status ≠ 200 →
      get_folders_children (.cons c2 rest) acc
        = get_folders_children rest (acc ++ [c2.id])) ∧
    get_webi_docs resp Option.none = .ok [] := by
  refine ⟨?_, ?_, ?_⟩
  · unfold get_folders_go
    simp [hst]
  · intro c2 rest h2
    obtain ⟨i2, st2, g2, cs2⟩ := c2
    simp only [FolderTree.status] at h2
    have hgo : get_folders_go (.node i2 st2 g2 cs2)
        (acc ++ [FolderTree.id (.node i2 st2 g2 cs2)])
        = .ok (acc ++ [FolderTree.id (.node i2 st2 g2 cs2)]) := by
      unfold get_folders_go
      simp [h2]
    conv_lhs => rw [get_folders_children]
    rw [hgo]
  · unfold get_webi_docs
    simp [hrs]

/-- Witness for C6: a 500-answering folder with children below it returns
the accumulator as is, a failing first sibling only contributes its own id,
and `get_webi_docs` on a 404 returns the empty list. -/
theorem C6_non200_silent_stop_witness :
    get_folders_go (.node "x" 500 true (.cons (.node "y" 200 true .nil) .nil)) ["p"]
      = .ok ["p"] ∧
    get_folders_children
      (.cons (.node "x" 500 true (.cons (.node "y" 200 true .nil) .nil))
        (.cons (.node "z" 200 true .nil) .nil)) []
      = get_folders_children (.cons (.node "z" 200 true .nil) .nil) ["x"] ∧
    get_webi_docs ⟨404, Option.none, "nope"⟩ Option.none = .ok [] := by
  obtain ⟨h1, h2, h3⟩ :=
    C6_non200_silent_stop "x" 500 true
      (.cons (.node "y" 200 true .nil) .nil) ["p"] ⟨404, Option.none, "nope"⟩
      (by decide) (by decide)
  refine ⟨h1, ?_, h3⟩
  obtain ⟨h1b, h2b, h3b⟩ :=
    C6_non200_silent_stop "x" 500 true
      (.cons (.node "y" 200 true .nil) .nil) [] ⟨404, Option.none, "nope"⟩
      (by decide) (by decide)
  exact h2b (.node "x" 500 true (.cons (.node "y" 200 true .nil) .nil))
    (.cons (.node "z" 200 true .nil) .nil) (by decide)

theorem get_webi_docs_extends (resp : HResponse) (wl wr : List JValue)
    (h : get_webi_docs resp (some wl) = .ok wr) : ∃ new, wr = wl ++ new := by
  obtain ⟨st, js, tx⟩ := resp
  by_cases hs : st = 200
  · subst hs
    cases js with
    | none => simp [get_webi_docs] at h
    | some j =>
      cases hg : j.getField "entries" with
      | none => simp [get_webi_docs, hg] at h
      | some v =>
        cases v with
        | arr es =>
          cases hm : extract_ids es with
          | error e => simp [get_webi_docs, hg, hm, Bind.bind, Except.bind] at h
          | ok ids =>
            simp [get_webi_docs, hg, hm, Bind.bind, Except.bind] at h
            exact ⟨ids, h.symm⟩
        | null => simp [get_webi_docs, hg] at h
        | bool b => simp [get_webi_docs, hg] at h
        | num n => simp [get_webi_docs, hg] at h
        | str s2 => simp [get_webi_docs, hg] at h
        | obj fs => simp [get_webi_docs, hg] at h
  · simp [get_webi_docs, hs] at h
    exact ⟨[], by simp [h.symm]⟩

/-- Claim C10: a caller-supplied accumulator is extended, never replaced:
whenever `get_folders` or `get_webi_docs` returns normally on a supplied
accumulator, the result is the supplied elements in their old order followed
by the newly discovered ids, so repeated calls that thread the returned list
through accumulate across calls instead of starting fresh. (The Python code
mutates and returns the very same list object; the embedding states the
extensional content of that aliasing.) -/
theorem C10_accumulator_extension (t : FolderTree) (l : List String) :
    (∀ r, get_folders t (some l) = .ok r → ∃ new, r = l ++ new) ∧
    (∀ (resp : HResponse) (wl wr : List JValue),
      get_webi_docs resp (some wl) = .ok wr → ∃ new, wr = wl ++ new) ∧
    (∀ (resp1 resp2 : HResponse) (wl w1 w2 : List JValue),
      get_webi_docs resp1 (some wl) = .ok w1 →
      get_webi_docs resp2 (some w1) = .ok w2 →
      ∃ n1 n2, w1 = wl ++ n1 ∧ w2 = wl ++ (n1 ++ n2)) := by
  refine ⟨?_, ?_, ?_⟩
  · intro r h
    exact get_folders_go_extends t l r h
  · intro resp wl wr h
    exact get_webi_docs_extends resp wl wr h
  · intro resp1 resp2 wl w1 w2 h1 h2
    obtain ⟨n1, hn1⟩ := get_webi_docs_extends resp1 wl w1 h1
    obtain ⟨n2, hn2⟩ := get_webi_docs_extends resp2 w1 w2 h2
    exact ⟨n1, n2, hn1, by rw [hn2, hn1, List.append_assoc]⟩

/-- Witness for C10: concrete accumulators survive as prefixes through a
folder traversal and through two chained document listings. -/
theorem C10_accumulator_extension_witness :
    (∃ new, (["seed"] ++ new : List String) = ["seed", "a", "a1", "a11", "a2", "b", "b1", "b2"]) ∧
    (∃ new, ([JValue.num 1] ++ new) = [JValue.num 1, JValue.num 7]) := by
  constructor
  · obtain ⟨hf, _, _⟩ := C10_accumulator_extension folderDemoTree ["seed"]
    obtain ⟨new, hnew⟩ := hf ["seed", "a", "a1", "a11", "a2", "b", "b1", "b2"] (by rfl)
    exact ⟨new, hnew.symm⟩
  · obtain ⟨_, hw, _⟩ := C10_accumulator_extension folderDemoTree ["seed"]
    obtain ⟨new, hnew⟩ := hw
      ⟨200, some (.obj [("entries", .arr [.obj [("id", .num 7)]])]), ""⟩
      [JValue.num 1] [JValue.num 1, JValue.num 7] (by rfl)
    exact ⟨new, hnew.symm⟩

/-- Claim C7: `get_doc_status` classifies its outcome three ways: a 2xx
response with a `document.state` field returns the one-field state
dictionary; a 500 response whose body is valid JSON with
`error.error_code` equal to `WSR 00999` returns that literal string; and a
500 response whose body is not valid JSON prints a decode-failure line and
returns `None` without raising past the operation boundary. -/
theorem C7_doc_status_classification (resp : HResponse) (j d st e : JValue) :
    (200 ≤ resp.status → resp.status < 300 → resp.json = some j →
      j.getField "document" = some d → d.getField "state" = some st →
      get_doc_status resp = .ok (.retDict [("webi_doc_state", st)], [])) ∧
    (resp.status = 500 → resp.json = some j → j.getField "error" = some e →
      e.getField "error_code" = some (.str "WSR 00999") →
      get_doc_status resp = .ok (.retStr "WSR 00999", [])) ∧
    (resp.status = 500 → resp.json = Option.none →
      get_doc_status resp = .ok (.retNone, ["Error decoding 500 JSON response"])) := by
  refine ⟨?_, ?_, ?_⟩
  · intro hlo hhi hjson hdoc hstate
    have hr : raise_for_status resp.status = false := by
      simp only [raise_for_status, decide_eq_false_iff_not]
      omega
    simp [get_doc_status, hr, hjson, requireField, hdoc, hstate, Bind.bind, Except.bind]
  · intro h500 hjson herr hcode
    have hr : raise_for_status 500 = true := by decide
    simp [get_doc_status, hr, h500, hjson, herr, hcode]
  · intro h500 hjson
    have hr : raise_for_status 500 = true := by decide
    simp [get_doc_status, hr, h500, hjson]

/-- Witness for C7 at the three concrete responses of the claim: a 200 with
a state, a 500 whose body is the `WSR 00999` error object, and a 500 with
an undecodable body. -/
theorem C7_doc_status_classification_witness :
    get_doc_status ⟨200, some (.obj [("document",
        .obj [("state", .str "Ready")])]), ""⟩
      = .ok (.retDict [("webi_doc_state", .str "Ready")], []) ∧
    get_doc_status ⟨500, some (.obj [("error",
        .obj [("error_code", .str "WSR 00999")])]), ""⟩
      = .ok (.retStr "WSR 00999", []) ∧
    get_doc_status ⟨500, Option.none, "<html>oops"⟩
      = .ok (.retNone, ["Error decoding 500 JSON response"]) := by
  refine ⟨?_, ?_, ?_⟩
  · exact (C7_doc_status_classification
      ⟨200, some (.obj [("document", .obj [("state", .str "Ready")])]), ""⟩
      (.obj [("document", .obj [("state", .str "Ready")])])
      (.obj [("state", .str "Ready")]) (.str "Ready") .null).1
      (by decide) (by decide) rfl rfl rfl
  · exact (C7_doc_status_classification
      ⟨500, some (.obj [("error", .obj [("error_code", .str "WSR 00999")])]), ""⟩
      (.obj [("error", .obj [("error_code", .str "WSR 00999")])])
      .null (.str "Ready") (.obj [("error_code", .str "WSR 00999")])).2.1
      rfl rfl rfl rfl
  · exact (C7_doc_status_classification ⟨500, Option.none, "<html>oops"⟩
      .null .null .null .null).2.2 rfl rfl

/-- Counterexample to claim C8: a 304 response is not treated as a failure.
`raise_for_status` raises only for 4xx and 5xx, so on status 304 the delete
and purge operations take the success path and return `True`, not the
documented failure sentinel `False` the claim asserts for every non-2xx
status. -/
theorem C8_counterexample :
    delete_webi_doc ⟨304, Option.none, ""⟩ = true ∧
    purge_dp ⟨304, Option.none, ""⟩ = true ∧
    ¬ (200 ≤ 304 ∧ 304 < 300) := by
  refine ⟨rfl, rfl, by decide⟩

/-- Claim C8 as amended: for every response whose status is 4xx or 5xx
(`raise_for_status` semantics, 404 included), each listed operation takes
its failure path and returns its documented sentinel without raising: the
gets return `None`, delete and purge return `False`, the provider listing
returns the empty sequence, and save only prints an error line. Statuses in
the 3xx range, such as 304, do not raise and are not failures. -/
theorem C8_amended (resp : HResponse) (h4 : 400 ≤ resp.status)
    (h6 : resp.status < 600) :
    delete_webi_doc resp = false ∧
    purge_dp resp = false ∧
    get_dp resp = .ok [] ∧
    get_dp_details resp = .ok Option.none ∧
    get_doc_details resp = .ok Option.none ∧
    save_webi_doc resp = ["Error saving Webi document"] ∧
    (∀ s, 300 ≤ s → s < 400 → raise_for_status s = false) := by
  have hr : raise_for_status resp.status = true := by
    simp only [raise_for_status, decide_eq_true_eq]
    omega
  refine ⟨?_, ?_, ?_, ?_, ?_, ?_, ?_⟩
  · simp [delete_webi_doc, hr]
  · simp [purge_dp, hr]
  · simp [get_dp, hr]
  · simp [get_dp_details, hr]
  · simp [get_doc_details, hr]
  · simp [save_webi_doc, hr]
  · intro s hs1 hs2
    simp only [raise_for_status, decide_eq_false_iff_not]
    omega

/-- Witness for the amended C8 at a concrete 404 response. -/
theorem C8_amended_witness :
    delete_webi_doc ⟨404, Option.none, "Not Found"⟩ = false ∧
    purge_dp ⟨404, Option.none, "Not Found"⟩ = false ∧
    get_dp ⟨404, Option.none, "Not Found"⟩ = .ok [] ∧
    get_dp_details ⟨404, Option.none, "Not Found"⟩ = .ok Option.none ∧
    get_doc_details ⟨404, Option.none, "Not Found"⟩ = .ok Option.none ∧
    save_webi_doc ⟨404, Option.none, "Not Found"⟩ = ["Error saving Webi document"] := by
  obtain ⟨h1, h2, h3, h4, h5, h6, h7⟩ :=
    C8_amended ⟨404, Option.none, "Not Found"⟩ (by decide) (by decide)
  exact ⟨h1, h2, h3, h4, h5, h6⟩
